import Mathlib

/-!
Shallow embedding of the Telegram → Google Drive relay bot (src/bot.py).

The effectful Python code is embedded as pure functions over an explicit
environment describing the behaviour of the two external collaborators
(the Telegram transport and the Google Drive client): each flag of the
environment records whether the corresponding external call succeeds.
Every run returns a `RunResult` holding the final outcome, whether the
staged file under /tmp is still present when `handle_file` returns, and
the ordered trace of externally visible actions the run performed.
-/

namespace TgDriveBot

/-- Media kinds the bot registers handlers for (document, photo, video, audio, voice). -/
inductive MediaKind
  | document
  | photo
  | video
  | audio
  | voice
  deriving DecidableEq

/-- Tags for the user-facing status messages the bot sends or edits
(src/bot.py lines 154, 165, 179, 187, 204, 215, 224). -/
inductive MsgTag
  | sizeError
  | downloading
  | downloadError
  | uploading
  | success
  | uploadError
  | genericError
  deriving DecidableEq

/-- Externally visible actions performed by one run of `handle_file`. -/
inductive Action
  | sendMsg (t : MsgTag)
  | getFile (id : Nat)
  | download (path : String)
  | driveCreateObject (parent name mime : String)
  | driveCreateContainer (parent name : String)
  | removeFile (path : String)
  deriving DecidableEq

/-- Result object returned by the Drive files().create call
(fields id, name, webViewLink, size requested at src/bot.py line 55). -/
structure RemoteObject where
  id : String
  name : String
  webViewLink : String
  size : Nat
  deriving DecidableEq

/-- Faults the external SDK calls can raise inside the Drive helpers. -/
inductive Fault
  | credParse
  | serviceBuild
  | uploadFault
  deriving DecidableEq

/-- Behaviour of the Google Drive collaborator for one run:
whether json.loads on the credentials succeeds, whether building the
service succeeds, whether the create call succeeds, the configured
DRIVE_FOLDER_ID, and the object metadata a successful create returns. -/
structure DriveEnv where
  credentialsParseOk : Bool
  serviceBuildOk : Bool
  uploadOk : Bool
  folderId : String
  remote : RemoteObject
  deriving DecidableEq

/-- Whether the Telegram file download leaves bytes at the destination path:
on success the full file is staged; a failed download may or may not leave
a (partial) file at the destination path. -/
inductive DownloadResult
  | ok
  | failFileAbsent
  | failFilePresent
  deriving DecidableEq

/-- Behaviour of the external collaborators for one `handle_file` run. -/
structure Env where
  getFileOk : Bool
  download : DownloadResult
  drive : DriveEnv
  deriving DecidableEq

/-- Inbound Telegram file object: opaque id, optional declared byte size
(absent models a file object without a file_size attribute), optional
declared MIME type supplied by the transport. -/
structure FileObj where
  file_id : Nat
  file_size : Option Nat
  mime_type : Option String
  deriving DecidableEq

/-- Arguments of one `handle_file` call: the file object, the file name the
dispatching handler chose, and the display label for the media kind. -/
structure Request where
  file_obj : FileObj
  file_name : String
  file_type : String
  deriving DecidableEq

/-- Terminal outcome of one `handle_file` run. -/
inductive Outcome
  | sizeExceeded
  | downloadFailed
  | uploadSucceeded
  | uploadFailed
  | errorCaught
  deriving DecidableEq

/-- What one `handle_file` run produced: the outcome, whether the staged
file still exists at the local path when the coroutine returns, and the
trace of external actions in execution order. -/
structure RunResult where
  outcome : Outcome
  stagedFilePresent : Bool
  actions : List Action
  deriving DecidableEq

/-- The static extension → MIME table of get_mime_type (src/bot.py lines 67-80). -/
def mime_types : List (String × String) :=
  [("jpg", "image/jpeg"), ("jpeg", "image/jpeg"), ("png", "image/png"),
   ("gif", "image/gif"), ("webp", "image/webp"),
   ("mp4", "video/mp4"), ("avi", "video/x-msvideo"), ("mkv", "video/x-matroska"),
   ("mov", "video/quicktime"), ("webm", "video/webm"),
   ("mp3", "audio/mpeg"), ("wav", "audio/wav"), ("ogg", "audio/ogg"),
   ("pdf", "application/pdf"), ("doc", "application/msword"),
   ("docx", "application/vnd.openxmlformats-officedocument.wordprocessingml.document"),
   ("xls", "application/vnd.ms-excel"),
   ("xlsx", "application/vnd.openxmlformats-officedocument.spreadsheetml.sheet"),
   ("zip", "application/zip"), ("rar", "application/x-rar-compressed"),
   ("7z", "application/x-7z-compressed"),
   ("txt", "text/plain"), ("csv", "text/csv")]

/-- Python str.split with a one-character separator, over the character list:
splitting yields one (possibly empty) piece per gap between separators. -/
def splitChars (sep : Char) : List Char → List (List Char)
  | [] => [[]]
  | c :: cs =>
      let rest := splitChars sep cs
      if c = sep then [] :: rest
      else
        match rest with
        | [] => [[c]]
        | h :: t => (c :: h) :: t

/-- get_mime_type (src/bot.py lines 64-81): lower-case the filename, take the
piece after the last dot (Python filename.lower().split('.')[-1]), look it up
in the static table, defaulting to application/octet-stream. -/
def get_mime_type (filename : String) : String :=
  match mime_types.lookup (String.mk ((splitChars '.' (filename.data.map Char.toLower)).getLastD [])) with
  | some m => m
  | none => "application/octet-stream"

/-- Body of get_drive_service before its except clause (src/bot.py lines 27-33):
json.loads on the credentials then service construction, each of which can raise. -/
def get_drive_service_body (env : DriveEnv) : Except Fault Unit :=
  if env.credentialsParseOk then
    if env.serviceBuildOk then Except.ok () else Except.error Fault.serviceBuild
  else Except.error Fault.credParse

/-- get_drive_service (src/bot.py lines 25-36): any fault in the body is
caught, logged and turned into None. -/
def get_drive_service (env : DriveEnv) : Option Unit :=
  match get_drive_service_body env with
  | Except.ok s => some s
  | Except.error _ => none

/-- Body of upload_to_drive inside its try block (src/bot.py lines 41-59):
get the service (returning None when it is unavailable), then perform
files().create().execute(), which can raise. -/
def upload_to_drive_body (env : DriveEnv) (file_path file_name mime_type : String) :
    Except Fault (Option RemoteObject) :=
  match get_drive_service env with
  | none => Except.ok none
  | some _ =>
      if env.uploadOk then
        Except.ok (some { env.remote with name := file_name })
      else Except.error Fault.uploadFault

/-- upload_to_drive (src/bot.py lines 38-62): the body runs under a
try/except that catches every exception and returns None. -/
def upload_to_drive (env : DriveEnv) (file_path file_name mime_type : String) :
    Option RemoteObject :=
  match upload_to_drive_body env file_path file_name mime_type with
  | Except.ok r => r
  | Except.error _ => none

/-- Drive operations attempted by one upload_to_drive call: nothing when the
service could not be built, otherwise a single files().create of the object
directly under the configured parent folder (src/bot.py lines 45-56). -/
def upload_to_drive_actions (env : DriveEnv) (file_name mime_type : String) : List Action :=
  match get_drive_service env with
  | none => []
  | some _ => [Action.driveCreateObject env.folderId file_name mime_type]

/-- Staging path for a resolved file name: local_path = f"/tmp/{file_name}"
(src/bot.py line 174). -/
def stage_path (file_name : String) : String := "/tmp/" ++ file_name

/-- Declared size with missing-attribute fallback (src/bot.py line 150):
file_obj.file_size if present, else 0. -/
def request_size (req : Request) : Nat :=
  match req.file_obj.file_size with
  | some n => n
  | none => 0

/-- The hard-coded 2 GiB size ceiling (src/bot.py line 153). -/
def max_file_size : Nat := 2147483648

/-- handle_file (src/bot.py lines 147-230): size precheck, progress message,
get_file, download to /tmp, upload to Drive, cleanup, and final status edit.
Status sends and edits are modelled as always succeeding; the fallible
external calls are get_file, the download, and the Drive upload. -/
def handle_file (env : Env) (req : Request) : RunResult :=
  if request_size req > max_file_size then
    { outcome := Outcome.sizeExceeded, stagedFilePresent := false,
      actions := [Action.sendMsg MsgTag.sizeError] }
  else if env.getFileOk = false then
    { outcome := Outcome.errorCaught, stagedFilePresent := false,
      actions := [Action.sendMsg MsgTag.downloading, Action.getFile req.file_obj.file_id,
                  Action.sendMsg MsgTag.genericError] }
  else
    match env.download with
    | DownloadResult.failFileAbsent =>
        { outcome := Outcome.downloadFailed, stagedFilePresent := false,
          actions := [Action.sendMsg MsgTag.downloading, Action.getFile req.file_obj.file_id,
                      Action.download (stage_path req.file_name),
                      Action.sendMsg MsgTag.downloadError] }
    | DownloadResult.failFilePresent =>
        { outcome := Outcome.downloadFailed, stagedFilePresent := true,
          actions := [Action.sendMsg MsgTag.downloading, Action.getFile req.file_obj.file_id,
                      Action.download (stage_path req.file_name),
                      Action.sendMsg MsgTag.downloadError] }
    | DownloadResult.ok =>
        match upload_to_drive env.drive (stage_path req.file_name) req.file_name
            (get_mime_type req.file_name) with
        | some _ =>
            { outcome := Outcome.uploadSucceeded, stagedFilePresent := false,
              actions := [Action.sendMsg MsgTag.downloading, Action.getFile req.file_obj.file_id,
                          Action.download (stage_path req.file_name),
                          Action.sendMsg MsgTag.uploading]
                         ++ upload_to_drive_actions env.drive req.file_name
                              (get_mime_type req.file_name)
                         ++ [Action.removeFile (stage_path req.file_name),
                             Action.sendMsg MsgTag.success] }
        | none =>
            { outcome := Outcome.uploadFailed, stagedFilePresent := false,
              actions := [Action.sendMsg MsgTag.downloading, Action.getFile req.file_obj.file_id,
                          Action.download (stage_path req.file_name),
                          Action.sendMsg MsgTag.uploading]
                         ++ upload_to_drive_actions env.drive req.file_name
                              (get_mime_type req.file_name)
                         ++ [Action.removeFile (stage_path req.file_name),
                             Action.sendMsg MsgTag.uploadError] }

/-- handle_document (src/bot.py lines 232-235) for a document whose declared
file_name is present: the declared name is passed to handle_file verbatim. -/
def handle_document (env : Env) (doc : FileObj) (file_name : String) : RunResult :=
  handle_file env { file_obj := doc, file_name := file_name, file_type := "document" }

/-- Name synthesized by handle_photo (src/bot.py line 241). -/
def handle_photo_name (timestamp uid : String) : String :=
  "photo_" ++ timestamp ++ "_" ++ uid ++ ".jpg"

/-- Name chosen by handle_video (src/bot.py line 247): the declared name
when it is present and non-empty (Python truthiness of the `or`), else the
synthesized fallback. -/
def handle_video_name (file_name : Option String) (timestamp : String) : String :=
  match file_name with
  | some s => if s = "" then "video_" ++ timestamp ++ ".mp4" else s
  | none => "video_" ++ timestamp ++ ".mp4"

/-- Name chosen by handle_audio (src/bot.py line 253), same fallback shape. -/
def handle_audio_name (file_name : Option String) (timestamp : String) : String :=
  match file_name with
  | some s => if s = "" then "audio_" ++ timestamp ++ ".mp3" else s
  | none => "audio_" ++ timestamp ++ ".mp3"

/-- Name synthesized by handle_voice (src/bot.py line 259). -/
def handle_voice_name (timestamp : String) : String :=
  "voice_" ++ timestamp ++ ".ogg"

/-- Whether a character list contains a path separator. -/
def containsSepL (l : List Char) : Bool :=
  l.any fun c => c == '/' || c == '\\'

/-- Whether a string contains a path-separator character. -/
def containsSep (s : String) : Bool := containsSepL s.data

/-- Modelled from the spec: RateLimitedReporter.shouldEmit. The repository
source has no progress-rate limiter; the spec defines the policy as: emit
iff isFinal is true or at least 5 seconds elapsed since the last emission. -/
def shouldEmit (lastEmittedAt now : Int) (isFinal : Bool) : Bool :=
  isFinal || decide (5 ≤ now - lastEmittedAt)

/-- Whether a status message tag reports a failure to the user. -/
def isFailureTag : MsgTag → Bool
  | MsgTag.sizeError => true
  | MsgTag.downloadError => true
  | MsgTag.uploadError => true
  | MsgTag.genericError => true
  | _ => false

/-- Number of failure status messages in a trace. -/
def failureMsgCount (l : List Action) : Nat :=
  l.countP fun a =>
    match a with
    | Action.sendMsg t => isFailureTag t
    | _ => false

/-- MIME strings of the Drive object-creation calls in a trace. -/
def publishedMimes (l : List Action) : List String :=
  l.filterMap fun a =>
    match a with
    | Action.driveCreateObject _ _ m => some m
    | _ => none

/- Concrete environments and requests used by witnesses and counterexamples. -/

/-- A Drive environment where every external call succeeds. -/
def driveOk : DriveEnv :=
  { credentialsParseOk := true, serviceBuildOk := true, uploadOk := true,
    folderId := "FOLDER",
    remote := { id := "obj1", name := "", webViewLink := "https://drive.example/obj1",
                size := 10 } }

/-- An environment where every external call succeeds. -/
def envOk : Env :=
  { getFileOk := true, download := DownloadResult.ok, drive := driveOk }

/-- A Drive environment whose files().create call fails. -/
def driveBadUpload : DriveEnv := { driveOk with uploadOk := false }

/-- An environment where everything succeeds except the Drive upload. -/
def envBadUpload : Env :=
  { getFileOk := true, download := DownloadResult.ok, drive := driveBadUpload }

/-- An environment where the Telegram download fails, leaving bytes at the
destination path. -/
def envDownloadLeaves : Env :=
  { getFileOk := true, download := DownloadResult.failFilePresent, drive := driveOk }

/-- A small well-formed request. -/
def reqSmall : Request :=
  { file_obj := { file_id := 2, file_size := some 1000, mime_type := none },
    file_name := "a.txt", file_type := "document" }

/-- A request whose declared size is 3 GB. -/
def reqBig : Request :=
  { file_obj := { file_id := 1, file_size := some 3000000000, mime_type := none },
    file_name := "big.bin", file_type := "document" }

/-- A request whose file object has no file_size attribute. -/
def reqNoSize : Request :=
  { file_obj := { file_id := 5, file_size := none, mime_type := none },
    file_name := "v.bin", file_type := "document" }

/-- The Drive actions of one upload contain no status message, hence no
failure message. -/
theorem failureMsgCount_upload_actions (denv : DriveEnv) (n m : String) :
    failureMsgCount (upload_to_drive_actions denv n m) = 0 := by
  unfold upload_to_drive_actions
  cases get_drive_service denv <;>
    simp [failureMsgCount, List.countP_cons, List.countP_nil, isFailureTag]

/-- failureMsgCount distributes over list append. -/
theorem failureMsgCount_append (a b : List Action) :
    failureMsgCount (a ++ b) = failureMsgCount a + failureMsgCount b := by
  simp [failureMsgCount, List.countP_append]

/-- C3: a request whose declared total size exceeds the 2 GiB ceiling is
settled immediately with the size-exceeded status message: no download, no
upload, no staging action occurs at all. -/
theorem c3_size_precheck_short_circuits (env : Env) (req : Request)
    (h : request_size req > max_file_size) :
    handle_file env req =
      { outcome := Outcome.sizeExceeded, stagedFilePresent := false,
        actions := [Action.sendMsg MsgTag.sizeError] } := by
  unfold handle_file
  rw [if_pos h]

/-- C3 witness: the 3 GB request is settled as size-exceeded with no I/O. -/
theorem c3_witness :
    request_size reqBig > max_file_size ∧
    handle_file envOk reqBig =
      { outcome := Outcome.sizeExceeded, stagedFilePresent := false,
        actions := [Action.sendMsg MsgTag.sizeError] } :=
  ⟨by decide, c3_size_precheck_short_circuits envOk reqBig (by decide)⟩

/-- C8: shouldEmit is true exactly when the frame is final or at least five
seconds elapsed since the last emission; in particular it is true whenever
isFinal holds, and false when isFinal is false and less than 5s elapsed. -/
theorem c8_shouldEmit_policy (lastEmittedAt now : Int) (isFinal : Bool) :
    shouldEmit lastEmittedAt now isFinal = true ↔
      (isFinal = true ∨ 5 ≤ now - lastEmittedAt) := by
  simp [shouldEmit]

/-- C9: upload_to_drive is total with result type Option: every fault raised
by its body is caught and turned into None, and the result is None exactly
when one of credentials parsing, service construction or the create call
fails — the cause is not distinguished in the result. -/
theorem c9_upload_none_on_every_fault (env : DriveEnv) (p n m : String) :
    (∀ e, upload_to_drive_body env p n m = Except.error e →
        upload_to_drive env p n m = none)
    ∧ (upload_to_drive env p n m = none ↔
        (env.credentialsParseOk && env.serviceBuildOk && env.uploadOk) = false) := by
  constructor
  · intro e he
    unfold upload_to_drive
    rw [he]
  · rcases env with ⟨cp, sb, up, fid, rem⟩
    cases cp <;> cases sb <;> cases up <;>
      simp [upload_to_drive, upload_to_drive_body, get_drive_service,
            get_drive_service_body]

/-- C9 witness: with a failing create call the caught fault yields None. -/
theorem c9_witness :
    upload_to_drive driveBadUpload "/tmp/a.txt" "a.txt" "text/plain" = none :=
  (c9_upload_none_on_every_fault driveBadUpload "/tmp/a.txt" "a.txt" "text/plain").1
    Fault.uploadFault rfl

/-- C10: a file object without a file_size attribute is treated as size 0,
so the 2 GiB precheck passes and the run proceeds to the download phase
(the get_file call is performed, and the run is never settled size-exceeded). -/
theorem c10_missing_size_passes_check (env : Env) (req : Request)
    (h : req.file_obj.file_size = none) :
    (handle_file env req).outcome ≠ Outcome.sizeExceeded ∧
    Action.getFile req.file_obj.file_id ∈ (handle_file env req).actions := by
  have hs : request_size req = 0 := by simp [request_size, h]
  have hmax : ¬ (0 > max_file_size) := by decide
  unfold handle_file
  rw [hs, if_neg hmax]
  split
  · simp
  · split
    · simp
    · simp
    · split <;> simp

/-- C10 witness: the no-size request proceeds to download. -/
theorem c10_witness :
    reqNoSize.file_obj.file_size = none ∧
    ((handle_file envOk reqNoSize).outcome ≠ Outcome.sizeExceeded ∧
     Action.getFile reqNoSize.file_obj.file_id ∈ (handle_file envOk reqNoSize).actions) :=
  ⟨rfl, c10_missing_size_passes_check envOk reqNoSize rfl⟩

/-- C1 counterexample: on the fetch-failure exit path the staged (partial)
file is not removed — handle_file returns from the download except branch
without any cleanup, so release does not fire on every exit path. -/
theorem c1_counterexample :
    (handle_file envDownloadLeaves reqSmall).outcome = Outcome.downloadFailed ∧
    (handle_file envDownloadLeaves reqSmall).stagedFilePresent = true := by
  decide

/-- C1 amended: the staged file is absent on return on every path except a
failed download that left bytes at the staging path: normal completion and
publish failure always run the cleanup, but the fetch-failure exit skips it. -/
theorem c1_cleanup_on_all_paths_except_fetch_failure (env : Env) (req : Request)
    (h : env.download ≠ DownloadResult.failFilePresent) :
    (handle_file env req).stagedFilePresent = false := by
  unfold handle_file
  split
  · rfl
  · split
    · rfl
    · split
      · rfl
      · exact absurd (by assumption) h
      · split <;> rfl

/-- C1 amended witness: a run with a failing publish still removes the
staged file before returning. -/
theorem c1_witness :
    envBadUpload.download ≠ DownloadResult.failFilePresent ∧
    (handle_file envBadUpload reqSmall).stagedFilePresent = false :=
  ⟨by decide, c1_cleanup_on_all_paths_except_fetch_failure envBadUpload reqSmall (by decide)⟩

/-- C4: when the download succeeds and the publish fails (for any underlying
cause, i.e. whenever upload_to_drive returns None), the run is settled as an
upload failure, the staged file is absent on return, and exactly one failure
status message is emitted. -/
theorem c4_publish_failure_settles_cleanly (env : Env) (req : Request)
    (hsize : ¬ request_size req > max_file_size)
    (hgf : env.getFileOk = true)
    (hdl : env.download = DownloadResult.ok)
    (hup : upload_to_drive env.drive (stage_path req.file_name) req.file_name
        (get_mime_type req.file_name) = none) :
    (handle_file env req).outcome = Outcome.uploadFailed ∧
    (handle_file env req).stagedFilePresent = false ∧
    failureMsgCount (handle_file env req).actions = 1 := by
  unfold handle_file
  rw [if_neg hsize, hgf]
  simp only [Bool.true_eq_false, if_false]
  rw [hdl]
  simp only []
  rw [hup]
  refine ⟨rfl, rfl, ?_⟩
  rw [failureMsgCount_append, failureMsgCount_append,
      failureMsgCount_upload_actions env.drive req.file_name (get_mime_type req.file_name)]
  simp [failureMsgCount, List.countP_cons, List.countP_nil, isFailureTag]

/-- C4 witness: publish failure on a concrete run. -/
theorem c4_witness :
    (¬ request_size reqSmall > max_file_size) ∧
    envBadUpload.getFileOk = true ∧
    envBadUpload.download = DownloadResult.ok ∧
    upload_to_drive envBadUpload.drive (stage_path reqSmall.file_name)
      reqSmall.file_name (get_mime_type reqSmall.file_name) = none ∧
    ((handle_file envBadUpload reqSmall).outcome = Outcome.uploadFailed ∧
     (handle_file envBadUpload reqSmall).stagedFilePresent = false ∧
     failureMsgCount (handle_file envBadUpload reqSmall).actions = 1) :=
  ⟨by decide, rfl, rfl, by decide,
   c4_publish_failure_settles_cleanly envBadUpload reqSmall (by decide) rfl rfl (by decide)⟩

/-- A document file object used by counterexamples. -/
def docPasswd : FileObj := { file_id := 3, file_size := some 4, mime_type := none }

/-- A request whose transport-declared MIME type differs from the one the
static table infers from the name. -/
def reqDeclMime : Request :=
  { file_obj := { file_id := 7, file_size := some 10,
                  mime_type := some "application/x-declared" },
    file_name := "a.txt", file_type := "document" }

/-- A request distinct from reqSmall but with the same file name. -/
def reqN2 : Request :=
  { file_obj := { file_id := 9, file_size := some 1000, mime_type := none },
    file_name := "a.txt", file_type := "document" }

/-- containsSep distributes over string append. -/
theorem containsSep_append (s t : String) :
    containsSep (s ++ t) = (containsSep s || containsSep t) := by
  obtain ⟨a⟩ := s
  obtain ⟨b⟩ := t
  simp [containsSep, containsSepL, String.append, List.any_append]

/-- publishedMimes distributes over list append. -/
theorem publishedMimes_append (a b : List Action) :
    publishedMimes (a ++ b) = publishedMimes a ++ publishedMimes b := by
  simp [publishedMimes, List.filterMap_append]

/-- C2 counterexample: a declared document name is used verbatim, so the
resolved name used for staging and publishing can contain path separators —
the declared name "../../etc/passwd" is staged at /tmp/../../etc/passwd and
published under that very name, with no synthesized fallback. -/
theorem c2_counterexample :
    containsSep "../../etc/passwd" = true ∧
    stage_path "../../etc/passwd" = "/tmp/../../etc/passwd" ∧
    Action.download (stage_path "../../etc/passwd") ∈
      (handle_document envOk docPasswd "../../etc/passwd").actions ∧
    Action.driveCreateObject driveOk.folderId "../../etc/passwd"
        (get_mime_type "../../etc/passwd") ∈
      (handle_document envOk docPasswd "../../etc/passwd").actions := by
  decide

/-- C2 amended: only the synthesized names are guaranteed safe — the names
built by the photo and voice handlers, and the fallback names of the video
and audio handlers, are non-empty and free of path separators provided the
timestamp and unique id are; a present non-empty declared name is passed
through verbatim, with no sanitization and no fallback. -/
theorem c2_synthesized_safe_declared_verbatim (ts uid : String)
    (hts : containsSep ts = false) (huid : containsSep uid = false) :
    (handle_photo_name ts uid ≠ "" ∧ containsSep (handle_photo_name ts uid) = false)
    ∧ (handle_voice_name ts ≠ "" ∧ containsSep (handle_voice_name ts) = false)
    ∧ (handle_video_name none ts ≠ "" ∧ containsSep (handle_video_name none ts) = false)
    ∧ (handle_audio_name none ts ≠ "" ∧ containsSep (handle_audio_name none ts) = false)
    ∧ (∀ s : String, s ≠ "" →
        handle_video_name (some s) ts = s ∧ handle_audio_name (some s) ts = s) := by
  refine ⟨⟨?_, ?_⟩, ⟨?_, ?_⟩, ⟨?_, ?_⟩, ⟨?_, ?_⟩, ?_⟩
  · intro h
    obtain ⟨a⟩ := ts
    obtain ⟨b⟩ := uid
    exact absurd (congrArg String.data h) (by simp [handle_photo_name, String.append])
  · show containsSep ("photo_" ++ ts ++ "_" ++ uid ++ ".jpg") = false
    simp [containsSep_append, hts, huid]
    decide
  · intro h
    obtain ⟨a⟩ := ts
    exact absurd (congrArg String.data h) (by simp [handle_voice_name, String.append])
  · show containsSep ("voice_" ++ ts ++ ".ogg") = false
    simp [containsSep_append, hts]
    decide
  · intro h
    obtain ⟨a⟩ := ts
    exact absurd (congrArg String.data h) (by simp [handle_video_name, String.append])
  · show containsSep ("video_" ++ ts ++ ".mp4") = false
    simp [containsSep_append, hts]
    decide
  · intro h
    obtain ⟨a⟩ := ts
    exact absurd (congrArg String.data h) (by simp [handle_audio_name, String.append])
  · show containsSep ("audio_" ++ ts ++ ".mp3") = false
    simp [containsSep_append, hts]
    decide
  · intro s hs
    constructor <;> simp [handle_video_name, handle_audio_name, hs]

/-- C2 amended witness: concrete timestamp and unique id. -/
theorem c2_witness :
    containsSep "20240101_000000" = false ∧
    containsSep "AgADBAAD" = false ∧
    (handle_photo_name "20240101_000000" "AgADBAAD" ≠ "" ∧
     containsSep (handle_photo_name "20240101_000000" "AgADBAAD") = false) :=
  ⟨by decide, by decide,
   (c2_synthesized_safe_declared_verbatim "20240101_000000" "AgADBAAD"
     (by decide) (by decide)).1⟩

/-- C5 counterexample: the transport-declared MIME type is ignored — the
published MIME for a request declaring application/x-declared with name
a.txt is text/plain, inferred from the name by the static table. -/
theorem c5_counterexample :
    reqDeclMime.file_obj.mime_type = some "application/x-declared" ∧
    publishedMimes (handle_file envOk reqDeclMime).actions = ["text/plain"] ∧
    "text/plain" ≠ "application/x-declared" := by
  decide

/-- C5 amended: every MIME type passed to the Drive object-creation call is
get_mime_type of the resolved file name — a single static table applied
consistently — and a transport-declared MIME type is never consulted. -/
theorem c5_mime_always_inferred_from_name (env : Env) (req : Request) :
    publishedMimes (handle_file env req).actions = [] ∨
    publishedMimes (handle_file env req).actions = [get_mime_type req.file_name] := by
  unfold handle_file
  split
  · left; rfl
  · split
    · left; rfl
    · split
      · left; rfl
      · left; rfl
      · split <;>
          (rcases hgs : get_drive_service env.drive with _ | _
           · left
             simp [publishedMimes_append, publishedMimes, upload_to_drive_actions, hgs,
                   List.filterMap_cons, List.filterMap_nil]
           · right
             simp [publishedMimes_append, publishedMimes, upload_to_drive_actions, hgs,
                   List.filterMap_cons, List.filterMap_nil])

/-- C6 counterexample: two distinct transfers whose declared names coincide
share the same staging path /tmp/a.txt — the stage path is not unique per
transfer. -/
theorem c6_counterexample :
    reqSmall ≠ reqN2 ∧
    stage_path reqSmall.file_name = stage_path reqN2.file_name ∧
    Action.download (stage_path "a.txt") ∈ (handle_file envOk reqSmall).actions ∧
    Action.download (stage_path "a.txt") ∈ (handle_file envOk reqN2).actions := by
  decide

/-- C6 amended: the staging path is a function of the resolved name alone,
injective in the name — transfers get distinct staging paths exactly when
their resolved names differ, and share the path whenever the names coincide. -/
theorem c6_stage_path_injective_in_name (n1 n2 : String) (h : n1 ≠ n2) :
    stage_path n1 ≠ stage_path n2 := by
  intro he
  apply h
  obtain ⟨a⟩ := n1
  obtain ⟨b⟩ := n2
  have hd := congrArg String.data he
  simp [stage_path, String.append] at hd
  simp [hd]

/-- C6 amended witness. -/
theorem c6_witness :
    ("a" : String) ≠ "b" ∧ stage_path "a" ≠ stage_path "b" :=
  ⟨by decide, c6_stage_path_injective_in_name "a" "b" (by decide)⟩

/-- C7 counterexample: the publisher has no per-item-folder variant — no run
of the pipeline, under any environment or request, ever performs a Drive
container creation; the negation of the claimed two-variant support. -/
theorem c7_counterexample :
    ¬ ∃ (env : Env) (req : Request) (pa na : String),
        Action.driveCreateContainer pa na ∈ (handle_file env req).actions := by
  rintro ⟨env, req, pa, na, hmem⟩
  unfold handle_file at hmem
  split at hmem
  · simp at hmem
  · split at hmem
    · simp at hmem
    · split at hmem
      · simp at hmem
      · simp at hmem
      · split at hmem <;>
          (rcases hgs : get_drive_service env.drive with _ | _ <;>
            simp [upload_to_drive_actions, hgs, List.mem_append] at hmem)

/-- C7 amended: only the flat placement policy exists — every upload attempt
issues at most one Drive operation, the creation of the object directly
under the configured destination folder. -/
theorem c7_flat_placement_only (denv : DriveEnv) (n m : String) :
    upload_to_drive_actions denv n m = [] ∨
    upload_to_drive_actions denv n m = [Action.driveCreateObject denv.folderId n m] := by
  unfold upload_to_drive_actions
  cases get_drive_service denv
  · left; rfl
  · right; rfl

end TgDriveBot
